import Mathlib

/-! Verification of the ccnotify hook program (ccnotify.py): a shallow
embedding of its session ledger, duration formatter, focus detector,
notification dispatcher, event handlers and input validator, together with
theorems settling the specification's claims about them. -/

namespace CCNotify

/-! ### Python string primitives

The source manipulates Python `str` values with `startswith`, the `in`
operator, `split`, `os.path.basename` and `lower`.  We model strings by
their character lists and give executable versions of those primitives. -/

/-- Python `s.startswith(p)` on character lists: `startsWithList s p` is
`true` iff `p` is a leading piece of `s`. -/
def startsWithList : List Char → List Char → Bool
  | _, [] => true
  | [], _ :: _ => false
  | c :: cs, p :: ps => c == p && startsWithList cs ps

/-- Python `p in s` (substring containment) on character lists:
`containsList p s` is `true` iff `p` occurs contiguously inside `s`. -/
def containsList (p : List Char) : List Char → Bool
  | [] => startsWithList [] p
  | c :: cs => startsWithList (c :: cs) p || containsList p cs

/-- Python `sep.join`-inverse `s.split(sep)` for a one-character separator:
splits at every occurrence of `sep`, keeping empty pieces, and always
returns at least one piece (Python `"".split(":") == [""]`). -/
def splitOnCharList (sep : Char) : List Char → List (List Char)
  | [] => [[]]
  | c :: cs =>
    if c == sep then [] :: splitOnCharList sep cs
    else
      match splitOnCharList sep cs with
      | [] => [[c]]
      | h :: t => (c :: h) :: t

/-- Python `pat in s` lifted to `String`. -/
def pyIn (pat s : String) : Bool :=
  containsList pat.toList s.toList

/-- Python `s.startswith(p)` lifted to `String`. -/
def strStartsWith (s p : String) : Bool :=
  startsWithList s.toList p.toList

/-- Python `s.lower()`, characterwise; the source only matches ASCII
phrases, on which this agrees with Python. -/
def pyLower (s : String) : String :=
  String.mk (s.toList.map Char.toLower)

/-- Python `os.path.basename(p)`: the piece after the last `/`. -/
def basename (p : String) : String :=
  String.mk ((splitOnCharList ('/') p.toList).getLastD [])

/-- Source `_parse_iterm_session_id` (ccnotify.py lines 23-29): given the
`ITERM_SESSION_ID` environment value (`""` when the variable is unset),
returns the raw value together with the session uuid, which is
`raw.split(":")[-1]` when the value contains a colon and the whole value
otherwise; an unset variable yields `("", "")`. -/
def parse_iterm_session_id (env : String) : String × String :=
  if env = "" then ("", "")
  else
    let uuid :=
      if pyIn (":") env then String.mk ((splitOnCharList (':') env.toList).getLastD [])
      else env
    (env, uuid)

/-! ### Data model

`TaskRecord` mirrors one row of the `prompt` table created by
`ClaudePromptTracker._init_database` (ccnotify.py lines 56-86).  SQLite
`CURRENT_TIMESTAMP` values are modelled as natural numbers (seconds);
`seq`, `stoped_at` (the source's spelling) and `lastWaitUserAt` are
nullable and hence `Option`-valued.  A `DB` is the table contents in
insertion order together with the next `AUTOINCREMENT` id. -/

structure TaskRecord where
  id : Nat
  session_id : String
  created_at : Nat
  prompt : String
  cwd : String
  seq : Option Nat
  stoped_at : Option Nat
  lastWaitUserAt : Option Nat
deriving DecidableEq, Repr

structure DB where
  rows : List TaskRecord
  nextId : Nat
deriving DecidableEq, Repr

/-- The empty database produced by `_init_database` on first run. -/
def DB.empty : DB := ⟨[], 0⟩

/-- SQL `SELECT COALESCE(MAX(seq), 0) FROM prompt WHERE session_id = sid`
(the subquery of the `auto_increment_seq` trigger, ccnotify.py lines
76-81).  SQL `MAX` ignores NULL `seq` values, which `Option.getD 0` also
does here because every assigned `seq` is positive. -/
def maxSeq (rows : List TaskRecord) (sid : String) : Nat :=
  rows.foldl (fun m r => if r.session_id == sid then max m (r.seq.getD 0) else m) 0

/-- Ledger step of `handle_user_prompt_submit` (ccnotify.py lines 99-104)
together with the `auto_increment_seq` trigger (lines 71-84): the
`INSERT INTO prompt (session_id, prompt, cwd)` appends a row with a fresh
id, `created_at = CURRENT_TIMESTAMP` and NULL `seq`; the trigger then runs
`UPDATE prompt SET seq = COALESCE(MAX(seq),0)+1 ... WHERE id = NEW.id`
over the table that already contains the new row (whose NULL `seq` the
`MAX` ignores). -/
def createTask (db : DB) (now : Nat) (sid pr cw : String) : DB :=
  let r0 : TaskRecord :=
    { id := db.nextId, session_id := sid, created_at := now, prompt := pr,
      cwd := cw, seq := none, stoped_at := none, lastWaitUserAt := none }
  let rows1 := db.rows ++ [r0]
  let newSeq := maxSeq rows1 sid + 1
  let rows2 := rows1.map (fun r => if r.id == db.nextId then { r with seq := some newSeq } else r)
  ⟨rows2, db.nextId + 1⟩

/-- Rows of a session that are still open, in table order:
`WHERE session_id = ? AND stoped_at IS NULL` (ccnotify.py line 114). -/
def openRows (db : DB) (sid : String) : List TaskRecord :=
  db.rows.filter (fun r => r.session_id == sid && r.stoped_at.isNone)

/-- All rows of a session, in table order: `WHERE session_id = ?`
(ccnotify.py line 163). -/
def sessionRows (db : DB) (sid : String) : List TaskRecord :=
  db.rows.filter (fun r => r.session_id == sid)

/-- SQL `ORDER BY created_at DESC LIMIT 1` over a candidate list: a row whose
`created_at` is maximal (SQLite leaves the choice among equal timestamps
unspecified; this model keeps the earliest such row). -/
def pickLatest : List TaskRecord → Option TaskRecord
  | [] => none
  | r :: rs =>
    match pickLatest rs with
    | none => some r
    | some b => if b.created_at > r.created_at then some b else some r

/-- Ledger step of `handle_stop` (ccnotify.py lines 111-128), named after
the spec's `closeMostRecentOpenTask`: select the open row of the session
with the latest `created_at`; if none exists return the database unchanged
and `none`; otherwise run `UPDATE prompt SET stoped_at = CURRENT_TIMESTAMP
WHERE id = record_id` and return the updated record. -/
def closeMostRecentOpenTask (db : DB) (now : Nat) (sid : String) :
    DB × Option TaskRecord :=
  match pickLatest (openRows db sid) with
  | none => (db, none)
  | some r =>
    (⟨db.rows.map (fun q => if q.id == r.id then { q with stoped_at := some now } else q),
      db.nextId⟩,
     some { r with stoped_at := some now })

/-- Ledger step of the waiting branch of `handle_notification`
(ccnotify.py lines 159-168), named after the spec's `markWaitingForUser`:
`UPDATE prompt SET lastWaitUserAt = CURRENT_TIMESTAMP WHERE id = (SELECT
id FROM prompt WHERE session_id = ? ORDER BY created_at DESC LIMIT 1)`.
When the session has no rows the subquery yields NULL and the update
matches nothing. -/
def markWaitingForUser (db : DB) (now : Nat) (sid : String) : DB :=
  match pickLatest (sessionRows db sid) with
  | none => db
  | some r =>
    ⟨db.rows.map (fun q => if q.id == r.id then { q with lastWaitUserAt := some now } else q),
     db.nextId⟩

/-! ### Duration formatter -/

/-- Source `_format_duration` (ccnotify.py lines 198-216).  The two
arguments stand for the results of `datetime.fromisoformat` on the two
timestamp strings, as seconds since some epoch: `none` models a malformed
timestamp, on which `fromisoformat` raises and the `except` branch
returns `"Unknown"`.  `int((end_dt - start_dt).total_seconds())` is the
exact integer difference (ledger timestamps carry whole seconds), and
Python's `divmod` on a positive divisor is Euclidean
division/remainder. -/
def format_duration (start_time end_time : Option Int) : String :=
  match start_time, end_time with
  | some s, some e =>
    let total_seconds : Int := e - s
    if total_seconds < 60 then toString total_seconds ++ "s"
    else
      let hours := total_seconds / 3600
      let rem := total_seconds % 3600
      let minutes := rem / 60
      let seconds := rem % 60
      if hours > 0 then
        if minutes ≠ 0 then toString hours ++ "h" ++ toString minutes ++ "m"
        else toString hours ++ "h"
      else
        if seconds ≠ 0 then toString minutes ++ "m" ++ toString seconds ++ "s"
        else toString minutes ++ "m"
  | _, _ => "Unknown"

/-- Source `_calculate_duration_from_db` (ccnotify.py lines 186-196):
load `created_at`/`stoped_at` of the row with the given id; if the row
exists and `stoped_at` is set, format the pair, else `"Unknown"`.
Database-generated timestamps always parse, hence the `some` wrappers. -/
def calculate_duration_from_db (db : DB) (rid : Nat) : String :=
  match db.rows.find? (fun r => r.id == rid) with
  | some r =>
    match r.stoped_at with
    | some st => format_duration (some (r.created_at : Int)) (some (st : Int))
    | none => "Unknown"
  | none => "Unknown"

/-! ### Effects, focus detection and the notification dispatcher -/

/-- Observable side effects of one handler invocation: process spawns,
sleeps (in milliseconds, so `0.7s` is `700`), raw terminal writes and log
lines. -/
inductive Action where
  | afplay (path : String)
  | sleepMs (ms : Nat)
  | ttyWrite (s : String)
  | runCmd (cmd : List String)
  | logInfo (msg : String)
  | logWarn (msg : String)
  | logError (msg : String)
deriving DecidableEq, Repr

/-- Whether an action raises a desktop alert (a `terminal-notifier`
invocation that is not a `-remove`). -/
def Action.isDesktopAlert : Action → Bool
  | Action.runCmd cmd => decide (cmd.take 2 = ["terminal-notifier", "-sound"])
  | _ => false

/-- Whether an action is the audible cue (`afplay`). -/
def Action.isAudible : Action → Bool
  | Action.afplay _ => true
  | _ => false

/-- The only exception that can escape the dispatcher: `subprocess.Popen`
raising `FileNotFoundError` for a missing executable. -/
inductive PyErr where
  | fileNotFound
deriving DecidableEq, Repr

/-- Environment and collaborator behaviour for one invocation: the
`ITERM_SESSION_ID` value (`""` when unset), what the host desktop query
would report, and which external mechanisms fail. -/
structure World where
  /-- Value of `ITERM_SESSION_ID`, `""` when the variable is unset. -/
  env : String
  /-- Name of the frontmost application as reported by System Events. -/
  front_app : String
  /-- Outcome of the iTerm2 `unique ID of current session` query:
  `Except.ok uid` or an AppleScript error message. -/
  iterm_query : Except String String
  /-- Python `subprocess.run(["osascript", ...])` itself raised
  (e.g. `TimeoutExpired` after the 2-second timeout). -/
  osascript_fails : Bool
  /-- The `afplay` executable is absent, so `subprocess.Popen` at
  ccnotify.py line 265 raises `FileNotFoundError`; that call is not
  inside any `try` block. -/
  afplay_missing : Bool
  /-- The `terminal-notifier` executable is absent, so `subprocess.run`
  at line 292 raises `FileNotFoundError`, caught at line 295. -/
  notifier_missing : Bool
  /-- Python `subprocess.run` at line 292 raised some other exception, caught by
  the generic handler at line 297. -/
  notifier_fails : Bool
  /-- Opening or writing `/dev/tty` in `_flash_bg` raised, caught at
  line 259. -/
  tty_fails : Bool
  /-- Result of `datetime.now().strftime` with the source format. -/
  now_str : String
deriving Repr

/-- What the AppleScript of `_is_session_focused` (ccnotify.py lines
224-236) writes to stdout: `"NOTFRONT:" & frontApp` when the frontmost
application is not iTerm2, else the unique session id, or `"ERROR:" &
errMsg` when that inner query fails.  The trailing newline that
`result.stdout.strip()` removes is elided. -/
def osaOutput (w : World) : String :=
  if w.front_app ≠ "iTerm2" then ("NOTFRONT:") ++ w.front_app
  else
    match w.iterm_query with
    | Except.ok uid => uid
    | Except.error msg => "ERROR:" ++ msg

/-- Source `_is_session_focused` (ccnotify.py lines 218-248): `false`
when the environment uuid is empty, when running `osascript` raises
(caught at line 246), or when the script output carries a `NOTFRONT:` or
`ERROR:` marker; otherwise compares the reported session id with the
environment uuid. -/
def is_session_focused (w : World) : Bool :=
  let uuid := (parse_iterm_session_id w.env).2
  if uuid = "" then false
  else if w.osascript_fails then false
  else
    let raw := osaOutput w
    if strStartsWith raw ("NOTFRONT:") || strStartsWith raw ("ERROR:") then false
    else raw == uuid

/-- Source constant `FLASH_COLOR` (ccnotify.py line 17). -/
def FLASH_COLOR : String := "4a3a00"

/-- Source constant `BG_COLOR` (ccnotify.py line 18). -/
def BG_COLOR : String := "2d2d3d"

/-- Escape sequence switching the background to the flash colour
(ccnotify.py line 254). -/
def setFlashColor : String := "\x1b]1337;SetColors=bg=" ++ FLASH_COLOR ++ "\x07"

/-- Escape sequence restoring the background colour (line 257). -/
def setBgColor : String := "\x1b]1337;SetColors=bg=" ++ BG_COLOR ++ "\x07"

/-- Source `_flash_bg` (ccnotify.py lines 250-260): write the flash
colour, hold 0.2s, restore; any failure of the `/dev/tty` block is caught
and logged as a warning (the logged exception text is abstracted). -/
def flash_bg (w : World) : List Action :=
  if w.tty_fails then [Action.logWarn ("Could not flash bg")]
  else [Action.ttyWrite setFlashColor, Action.sleepMs 200, Action.ttyWrite setBgColor]

/-- The sound asset played on the focused path (ccnotify.py line 266). -/
def glassSound : String := "/System/Library/Sounds/Glass.aiff"

/-- Stands for `os.path.join(SCRIPT_DIR, "activate-session.sh")`
(ccnotify.py line 287); the directory prefix is irrelevant here. -/
def activate_script : String := "activate-session.sh"

/-- The `terminal-notifier` command line built at ccnotify.py lines
278-290: `-group` is the session uuid or `"claude-code"`, and the click
action is `-execute activate-session.sh "<uuid>"` when a uuid is
available, else `-activate com.googlecode.iterm2`. -/
def notifierCmd (title subtitle uuid nowStr : String) : List String :=
  ["terminal-notifier", "-sound", "default", "-title", title,
   "-subtitle", subtitle ++ "\n" ++ nowStr,
   "-group", if uuid = "" then ("claude-code") else uuid]
  ++ (if uuid = "" then ["-activate", "com.googlecode.iterm2"]
      else ["-execute", activate_script ++ " \x22" ++ uuid ++ "\x22"])

/-- Source `send_notification` (ccnotify.py lines 262-298).  Focused
path: spawn `afplay` (a `Popen` outside any `try`: a missing binary
raises `FileNotFoundError` to the caller), sleep 0.7s, flash, log, and
return without any desktop alert.  Unfocused path: inside a `try`, run
`terminal-notifier` then flash then log; a missing binary is caught and
logged as a warning, any other dispatch error is caught and logged as an
error.  The `cwd` parameter exists in the source but is unused. -/
def send_notification (w : World) (title subtitle cwd : String) :
    Except PyErr (List Action) :=
  if is_session_focused w then
    if w.afplay_missing then Except.error PyErr.fileNotFound
    else
      Except.ok ([Action.afplay glassSound, Action.sleepMs 700] ++ flash_bg w
        ++ [Action.logInfo ("Notification skipped (session focused): "
              ++ title ++ " - " ++ subtitle)])
  else
    let uuid := (parse_iterm_session_id w.env).2
    if w.notifier_missing then
      Except.ok [Action.logWarn ("terminal-notifier not found, notification skipped")]
    else if w.notifier_fails then
      Except.ok [Action.logError ("Error sending notification")]
    else
      Except.ok ([Action.runCmd (notifierCmd title subtitle uuid w.now_str)] ++ flash_bg w
        ++ [Action.logInfo ("Notification sent: " ++ title ++ " - " ++ subtitle
              ++ " (session: " ++ (parse_iterm_session_id w.env).1 ++ ")")])

/-! ### Event handlers

Each handler is split into its ledger transition and the notification
call it hands to the dispatcher, mirroring the source order in which the
`UPDATE ... ; conn.commit()` completes before `send_notification` runs
(ccnotify.py lines 124-140). -/

/-- Arguments of a `send_notification` call made by a handler. -/
structure NotifyCall where
  title : String
  subtitle : String
  cwd : String
deriving DecidableEq, Repr

/-- Python `str(x)` on a nullable `seq` value (`None` prints as
`"None"`), used by the f-string at ccnotify.py line 138 via
`seq = seq_row[0] if seq_row else 1`. -/
def pyShowOptNat : Option Nat → String
  | some n => toString n
  | none => "None"

/-- Source `handle_user_prompt_submit` (ccnotify.py lines 88-106): a
best-effort `terminal-notifier -remove <uuid>` dismissal when the
environment provides a session uuid, then the ledger insert. -/
def handle_user_prompt_submit (db : DB) (now : Nat) (env : String)
    (sid pr cw : String) : DB × List Action :=
  let uuid := (parse_iterm_session_id env).2
  let acts :=
    if uuid = "" then []
    else [Action.runCmd (["terminal-notifier", "-remove", uuid])]
  (createTask db now sid pr cw,
   acts ++ [Action.logInfo ("Recorded prompt for session " ++ sid)])

/-- Source `handle_stop` (ccnotify.py lines 108-144): close the most
recent open task; when none exists return with no notification call;
otherwise read back `seq`, compute the duration from the updated row and
request a notification titled by `basename(cwd)` (or the fallback) with a
`job#<seq> done` subtitle. -/
def handle_stop (db : DB) (now : Nat) (sid : String) : DB × Option NotifyCall :=
  match closeMostRecentOpenTask db now sid with
  | (_, none) => (db, none)
  | (db2, some r) =>
    let seqStr :=
      match db2.rows.find? (fun q => q.id == r.id) with
      | some q => pyShowOptNat q.seq
      | none => toString (1 : Nat)
    let duration := calculate_duration_from_db db2 r.id
    (db2, some { title := if r.cwd ≠ "" then basename r.cwd else ("Claude Task"),
                 subtitle := "job#" ++ seqStr ++ " done, duration: " ++ duration,
                 cwd := r.cwd })

/-- Waiting-phrase test of `handle_notification` (ccnotify.py lines
156-157), applied to the lower-cased message. -/
def isWaitingMessage (ml : String) : Bool :=
  pyIn ("waiting for your input") ml || pyIn ("waiting for input") ml

/-- Subtitle classification of `handle_notification` (ccnotify.py lines
172-177), applied to the lower-cased message. -/
def classifySubtitle (ml : String) : String :=
  if pyIn ("permission") ml then ("Permission Required")
  else if pyIn ("approval") ml || pyIn ("choose an option") ml then ("Action Required")
  else ("Notification")

/-- Source `handle_notification` (ccnotify.py lines 146-184): a waiting
message only updates `lastWaitUserAt` and requests no notification;
otherwise the ledger is untouched and a notification is requested with
the classified subtitle. -/
def handle_notification (db : DB) (now : Nat) (sid message cwd : String) :
    DB × Option NotifyCall :=
  let ml := (pyLower message)
  if isWaitingMessage ml then (markWaitingForUser db now sid, none)
  else
    (db, some { title := if cwd ≠ "" then basename cwd else ("Claude Task"),
                subtitle := classifySubtitle ml,
                cwd := cwd })

/-- Full Stop-event pipeline: the ledger transition of `handle_stop`
(whose `UPDATE`/`commit` completes at ccnotify.py line 128) followed by
the dispatcher call at line 136, whose outcome cannot alter the already
committed database. -/
def run_stop (db : DB) (now : Nat) (sid : String) (w : World) :
    DB × Except PyErr (List Action) :=
  match handle_stop db now sid with
  | (db2, none) => (db2, Except.ok [])
  | (db2, some call) => (db2, send_notification w call.title call.subtitle call.cwd)

/-! ### Input validator -/

/-- Validation failures of `validate_input_data`, named after the spec's
taxonomy; the source raises `ValueError` with a matching message for
each. -/
inductive VError where
  | unknownEventKind (k : String)
  | eventKindMismatch (expected : String) (got : Option String)
  | missingFields (fs : List String)
deriving DecidableEq, Repr

/-- Source table `REQUIRED_FIELDS` (ccnotify.py lines 301-305) as a
lookup: `none` for an unrecognized event kind. -/
def REQUIRED_FIELDS (k : String) : Option (List String) :=
  if k = "UserPromptSubmit" then some ["session_id", "prompt", "cwd", "hook_event_name"]
  else if k = "Stop" then some ["session_id", "hook_event_name"]
  else if k = "Notification" then some ["session_id", "message", "hook_event_name"]
  else none

/-- Python `data.get(k)` on a JSON object whose values are modelled as
`Option String` (`none` is JSON `null`): an absent key and a null value
both yield `none`, exactly the two cases `f not in data or data[f] is
None` of the source. -/
def dataGet (data : List (String × Option String)) (k : String) : Option String :=
  match data.find? (fun p => p.1 == k) with
  | some p => p.2
  | none => none

/-- Source `validate_input_data` (ccnotify.py lines 308-323): unknown
expected kind first, then the self-declared `hook_event_name` comparison,
then the list comprehension collecting required fields that are absent or
null; success returns `()` and has no side effects. -/
def validate_input_data (data : List (String × Option String))
    (expected : String) : Except VError Unit :=
  match REQUIRED_FIELDS expected with
  | none => Except.error (VError.unknownEventKind expected)
  | some req =>
    if dataGet data ("hook_event_name") ≠ some expected then
      Except.error (VError.eventKindMismatch expected (dataGet data ("hook_event_name")))
    else
      let missing := req.filter (fun f => (dataGet data f).isNone)
      if missing ≠ [] then Except.error (VError.missingFields missing)
      else Except.ok ()

/-! ### Sequences of task creations (for the `seq` invariant) -/

/-- Arguments of one `createTask` call: session, prompt, working
directory and the `CURRENT_TIMESTAMP` at which it runs. -/
structure CreateOp where
  session_id : String
  prompt : String
  cwd : String
  now : Nat
deriving DecidableEq, Repr

/-- Replay a sequence of `createTask` calls (submit events, arbitrarily
interleaving sessions) against a database. -/
def runCreates (db : DB) (ops : List CreateOp) : DB :=
  ops.foldl (fun d op => createTask d op.now op.session_id op.prompt op.cwd) db

/-- The `seq` column of a session's rows, in creation (insertion)
order. -/
def sessionSeqs (db : DB) (sid : String) : List (Option Nat) :=
  (sessionRows db sid).map (fun r => r.seq)

/-- Number of rows of a session. -/
def countSid (db : DB) (sid : String) : Nat :=
  db.rows.countP (fun r => r.session_id == sid)

/-- Invariant maintained by `createTask`: ids are below the
autoincrement counter, and each session's `seq` column reads
`some 1, ..., some N` in creation order. -/
def SeqInv (db : DB) : Prop :=
  (∀ r ∈ db.rows, r.id < db.nextId) ∧
  ∀ sid, sessionSeqs db sid = (List.range' 1 (countSid db sid)).map some

/-! ### Concrete example values used by witnesses and counterexamples -/

/-- Concrete closed row of session `s1`. -/
def rEx1 : TaskRecord :=
  { id := 0, session_id := "s1", created_at := 1, prompt := "p1",
    cwd := "/tmp/projA", seq := some 1, stoped_at := some 3, lastWaitUserAt := none }

/-- Concrete open row of session `s1`, created later than `rEx1`. -/
def rEx2 : TaskRecord :=
  { id := 1, session_id := "s1", created_at := 4, prompt := "p2",
    cwd := "/tmp/projA", seq := some 2, stoped_at := none, lastWaitUserAt := none }

/-- Concrete open row of an unrelated session `s2`. -/
def rEx3 : TaskRecord :=
  { id := 2, session_id := "s2", created_at := 2, prompt := "p3",
    cwd := "/tmp/projB", seq := some 1, stoped_at := none, lastWaitUserAt := none }

/-- Concrete three-row database. -/
def dbEx : DB := { rows := [rEx1, rEx2, rEx3], nextId := 3 }

/-- Concrete world with the session identifier variable unset. -/
def wEmptyEnv : World :=
  { env := "", front_app := "iTerm2", iterm_query := Except.ok ("AB-1"),
    osascript_fails := false, afplay_missing := false, notifier_missing := false,
    notifier_fails := false, tty_fails := false, now_str := "" }

/-- Concrete world whose session is focused and whose collaborators all
work. -/
def wFocused : World :=
  { env := "w0t0p0:AB-1", front_app := "iTerm2", iterm_query := Except.ok ("AB-1"),
    osascript_fails := false, afplay_missing := false, notifier_missing := false,
    notifier_fails := false, tty_fails := false, now_str := "June 01, 2026 at 12:00" }

/-- Concrete world whose session is not focused (another application is
frontmost) and whose collaborators all work. -/
def wUnfocused : World :=
  { env := "w0t0p0:AB-1", front_app := "Safari", iterm_query := Except.ok ("AB-1"),
    osascript_fails := false, afplay_missing := false, notifier_missing := false,
    notifier_fails := false, tty_fails := false, now_str := "June 01, 2026 at 12:00" }

/-- Concrete focused world in which the `afplay` executable is absent. -/
def wFocusedNoAfplay : World :=
  { env := "w0t0p0:AB-1", front_app := "iTerm2", iterm_query := Except.ok ("AB-1"),
    osascript_fails := false, afplay_missing := true, notifier_missing := false,
    notifier_fails := false, tty_fails := false, now_str := "June 01, 2026 at 12:00" }

/-- Concrete unfocused world in which the `terminal-notifier` executable
is absent. -/
def wUnfocusedNoNotifier : World :=
  { env := "w0t0p0:AB-1", front_app := "Safari", iterm_query := Except.ok ("AB-1"),
    osascript_fails := false, afplay_missing := false, notifier_missing := true,
    notifier_fails := false, tty_fails := false, now_str := "June 01, 2026 at 12:00" }

/-! ### Helper lemmas about the string primitives -/

lemma splitOnCharList_ne_nil (sep : Char) (l : List Char) :
    splitOnCharList sep l ≠ [] := by
  cases l with
  | nil => simp [splitOnCharList]
  | cons c cs =>
    simp only [splitOnCharList]
    by_cases h : c == sep
    · simp [h]
    · simp only [h]
      cases splitOnCharList sep cs <;> simp

lemma splitOnCharList_length_ge_two (sep : Char) (l : List Char)
    (h : sep ∈ l) : 2 ≤ (splitOnCharList sep l).length := by
  induction l with
  | nil => cases h
  | cons c cs ih =>
    simp only [splitOnCharList]
    by_cases hc : c == sep
    · simp only [hc, if_pos]
      have := splitOnCharList_ne_nil sep cs
      have hlen : 1 ≤ (splitOnCharList sep cs).length :=
        List.length_pos.mpr this
      simpa using Nat.succ_le_succ hlen
    · have hmem : sep ∈ cs := by
        rcases List.mem_cons.mp h with h1 | h2
        · exact absurd (by simp [h1]) hc
        · exact h2
      have h2 := ih hmem
      simp only [hc, if_neg, Bool.false_eq_true, not_false_iff]
      rcases heq : splitOnCharList sep cs with _ | ⟨hd, tl⟩
      · exact absurd heq (splitOnCharList_ne_nil sep cs)
      · rw [heq] at h2
        simpa using h2

lemma splitOnCharList_no_sep (sep : Char) (l : List Char)
    (h : sep ∉ l) : splitOnCharList sep l = [l] := by
  induction l with
  | nil => rfl
  | cons c cs ih =>
    have hc : ¬(c == sep) = true := by
      simp only [beq_iff_eq]
      intro hcc
      exact h (by simp [hcc])
    have hcs : sep ∉ cs := fun hm => h (List.mem_cons_of_mem _ hm)
    simp only [splitOnCharList, hc, if_neg, ih hcs, Bool.false_eq_true,
      not_false_iff]

lemma splitOnCharList_getLast?_append (sep : Char) (xl ul : List Char)
    (hu : sep ∉ ul) :
    (splitOnCharList sep (xl ++ sep :: ul)).getLast? = some ul := by
  induction xl with
  | nil =>
    simp only [List.nil_append, splitOnCharList, beq_self_eq_true, if_pos,
      splitOnCharList_no_sep sep ul hu]
    rfl
  | cons c cs ih =>
    have hmem : sep ∈ cs ++ sep :: ul := by simp
    have hlen := splitOnCharList_length_ge_two sep (cs ++ sep :: ul) hmem
    simp only [List.cons_append, splitOnCharList]
    by_cases hc : c == sep
    · simp only [hc, if_pos]
      rcases heq : splitOnCharList sep (cs ++ sep :: ul) with _ | ⟨hd, tl⟩
      · exact absurd heq (splitOnCharList_ne_nil sep _)
      · rw [heq] at ih hlen
        rcases tl with _ | ⟨t1, ts⟩
        · simp at hlen
        · rw [List.getLast?_cons_cons]
          exact ih
    · simp only [hc, if_neg, Bool.false_eq_true, not_false_iff]
      rcases heq : splitOnCharList sep (cs ++ sep :: ul) with _ | ⟨hd, tl⟩
      · exact absurd heq (splitOnCharList_ne_nil sep _)
      · rw [heq] at ih hlen
        rcases tl with _ | ⟨t1, ts⟩
        · simp at hlen
        · rw [List.getLast?_cons_cons]
          rw [List.getLast?_cons_cons] at ih
          exact ih

lemma containsList_sep_append (sep : Char) (xl ul : List Char) :
    containsList [sep] (xl ++ sep :: ul) = true := by
  induction xl with
  | nil =>
    simp [containsList, startsWithList]
  | cons c cs ih =>
    simp only [List.cons_append, containsList, List.append_eq, ih, Bool.or_true]

lemma string_mk_data (s : String) : String.mk s.data = s := rfl

lemma toList_eq_data (s : String) : s.toList = s.data := rfl

/-! ### C10: session uuid extraction takes the piece after the last colon -/

/-- C10: for every environment value with at least one `:` separator —
in particular any value with more than one, since `x` below may itself
contain colons — the extracted session uuid is the piece after the last
colon; on a concrete two-separator value it is not everything after the
first colon. -/
theorem c10_uuid_after_last_colon (x u : String) (hu : (':') ∉ u.toList) :
    (parse_iterm_session_id (x ++ (":") ++ u)).2 = u ∧
    (parse_iterm_session_id ("w0t0p0:extra:UUID-1")).2 = "UUID-1" ∧
    (parse_iterm_session_id ("w0t0p0:extra:UUID-1")).2 ≠ "extra:UUID-1" := by
  refine ⟨?_, by decide, by decide⟩
  have hdata : (x ++ (":") ++ u).data = x.data ++ (':') :: u.data := by
    have hc : (":" : String).data = [':'] := rfl
    rw [String.data_append, String.data_append, hc, List.append_assoc]
    rfl
  have hne : x ++ (":") ++ u ≠ "" := by
    intro h
    have h2 := congrArg String.data h
    rw [hdata] at h2
    have he : ("" : String).data = [] := rfl
    rw [he] at h2
    simp at h2
  have hin : pyIn (":") (x ++ (":") ++ u) = true := by
    show containsList (":" : String).toList (x ++ (":") ++ u).toList = true
    have hc : (":" : String).toList = [':'] := rfl
    rw [hc, toList_eq_data, hdata]
    exact containsList_sep_append (':') x.data u.data
  unfold parse_iterm_session_id
  rw [if_neg hne]
  simp only [hin, if_true]
  show String.mk ((splitOnCharList (':') (x ++ (":") ++ u).toList).getLastD []) = u
  rw [toList_eq_data, hdata, List.getLastD_eq_getLast?,
    splitOnCharList_getLast?_append (':') x.data u.data hu]
  exact string_mk_data u

/-- Witness for C10 at a concrete two-separator value. -/
theorem c10_uuid_after_last_colon_witness :
    (':') ∉ ("UUID-1" : String).toList ∧
    (parse_iterm_session_id ("w0t0p0:extra" ++ (":") ++ "UUID-1")).2 = "UUID-1" :=
  ⟨by decide, (c10_uuid_after_last_colon ("w0t0p0:extra") ("UUID-1") (by decide)).1⟩

/-! ### C3 and C9: the duration formatter -/

/-- C3 counterexample: a negative whole-second difference does not yield
`"Unknown"`; the formatter's first branch formats it as a negative
seconds string. -/
theorem c3_negative_not_unknown :
    (5 : Int) - 10 < 0 ∧
    format_duration (some (10 : Int)) (some (5 : Int)) = "-5s" ∧
    format_duration (some (10 : Int)) (some (5 : Int)) ≠ "Unknown" := by
  refine ⟨by norm_num, by decide, by decide⟩

/-- C3 (amended): the formatter returns `"Unknown"` rather than raising
whenever either input is malformed; a negative difference does not raise
either, but is formatted by the seconds rule (`"{d}s"` with `d < 0`)
instead of yielding `"Unknown"`. -/
theorem c3_amended_malformed_unknown (s e : Option Int) (a b : Int)
    (hneg : b - a < 0) :
    format_duration none e = "Unknown" ∧
    format_duration s none = "Unknown" ∧
    format_duration (some a) (some b) = toString (b - a) ++ "s" := by
  refine ⟨?_, ?_, ?_⟩
  · cases e <;> rfl
  · cases s <;> rfl
  · have h : b - a < 60 := by omega
    simp only [format_duration, if_pos h]

/-- Witness for C3 (amended) at concrete timestamps. -/
theorem c3_amended_malformed_unknown_witness :
    (5 : Int) - 10 < 0 ∧
    (format_duration none (some (3 : Int)) = "Unknown" ∧
     format_duration (some (3 : Int)) none = "Unknown" ∧
     format_duration (some (10 : Int)) (some (5 : Int)) = toString ((5 : Int) - 10) ++ "s") :=
  ⟨by norm_num,
   c3_amended_malformed_unknown (some (3 : Int)) (some (3 : Int)) 10 5 (by norm_num)⟩

/-- C9: for every non-negative whole-second difference `d`, the
formatter follows the spec's case table, and the spec's five concrete
examples hold. -/
theorem c9_format_cases (start d : Int) (hd : 0 ≤ d) :
    (d < 60 →
      format_duration (some start) (some (start + d)) = toString d ++ "s") ∧
    (60 ≤ d → d < 3600 →
      (d % 60 ≠ 0 →
        format_duration (some start) (some (start + d))
          = toString (d / 60) ++ "m" ++ toString (d % 60) ++ "s") ∧
      (d % 60 = 0 →
        format_duration (some start) (some (start + d)) = toString (d / 60) ++ "m")) ∧
    (3600 ≤ d →
      ((d % 3600) / 60 ≠ 0 →
        format_duration (some start) (some (start + d))
          = toString (d / 3600) ++ "h" ++ toString ((d % 3600) / 60) ++ "m") ∧
      ((d % 3600) / 60 = 0 →
        format_duration (some start) (some (start + d)) = toString (d / 3600) ++ "h")) ∧
    format_duration (some start) (some (start + 45)) = "45s" ∧
    format_duration (some start) (some (start + 150)) = "2m30s" ∧
    format_duration (some start) (some (start + 180)) = "3m" ∧
    format_duration (some start) (some (start + 4500)) = "1h15m" ∧
    format_duration (some start) (some (start + 7200)) = "2h" := by
  have hdiff : ∀ c : Int, start + c - start = c := fun c => by ring
  refine ⟨?_, ?_, ?_, ?_, ?_, ?_, ?_, ?_⟩
  · intro h1
    simp only [format_duration, hdiff, if_pos h1]
  · intro h1 h2
    have hlt : ¬(d < 60) := by omega
    have hdiv0 : d / 3600 = 0 := Int.ediv_eq_zero_of_lt hd h2
    have hmod : d % 3600 = d := Int.emod_eq_of_lt hd h2
    have hpos : ¬(d / 3600 > 0) := by omega
    constructor
    · intro h3
      simp only [format_duration, hdiff, if_neg hlt, hmod, if_neg hpos, if_pos h3]
    · intro h3
      simp only [format_duration, hdiff, if_neg hlt, hmod, if_neg hpos, h3,
        ne_eq, not_true_eq_false, if_false]
  · intro h1
    have hlt : ¬(d < 60) := by omega
    have hpos : d / 3600 > 0 := by omega
    constructor
    · intro h3
      simp only [format_duration, hdiff, if_neg hlt, if_pos hpos, if_pos h3]
    · intro h3
      simp only [format_duration, hdiff, if_neg hlt, if_pos hpos, h3,
        ne_eq, not_true_eq_false, if_false]
  · simp only [format_duration, hdiff]
    decide
  · simp only [format_duration, hdiff]
    decide
  · simp only [format_duration, hdiff]
    decide
  · simp only [format_duration, hdiff]
    decide
  · simp only [format_duration, hdiff]
    decide

/-- Witness for C9 at `d = 150`. -/
theorem c9_format_cases_witness :
    (0 : Int) ≤ 150 ∧ (60 : Int) ≤ 150 ∧ (150 : Int) < 3600 ∧ (150 : Int) % 60 ≠ 0 ∧
    format_duration (some (0 : Int)) (some ((0 : Int) + 150))
      = toString ((150 : Int) / 60) ++ "m" ++ toString ((150 : Int) % 60) ++ "s" :=
  ⟨by norm_num, by norm_num, by norm_num, by decide,
   (((c9_format_cases 0 150 (by norm_num)).2.1 (by norm_num) (by norm_num)).1 (by decide))⟩

/-! ### C7: the input validator -/

/-- C7: validation fails with `unknownEventKind` when the expected kind
is not one of the three recognized kinds; fails with
`eventKindMismatch` when the record's self-declared `hook_event_name`
differs from the expected kind; fails with `missingFields` listing
exactly the required fields that are absent or null; and otherwise
returns successfully (the function is pure, so it has no side
effects). -/
theorem c7_validate_cases (data : List (String × Option String)) (expected : String) :
    (¬(expected = "UserPromptSubmit" ∨ expected = "Stop" ∨ expected = "Notification") →
      validate_input_data data expected
        = Except.error (VError.unknownEventKind expected)) ∧
    (∀ req, REQUIRED_FIELDS expected = some req →
      (dataGet data ("hook_event_name") ≠ some expected →
        validate_input_data data expected
          = Except.error
              (VError.eventKindMismatch expected (dataGet data ("hook_event_name")))) ∧
      (dataGet data ("hook_event_name") = some expected →
        (∀ ms, validate_input_data data expected
            = Except.error (VError.missingFields ms) →
          ∀ f, f ∈ ms ↔ f ∈ req ∧ dataGet data f = none) ∧
        (req.filter (fun f => (dataGet data f).isNone) ≠ [] →
          validate_input_data data expected
            = Except.error
                (VError.missingFields (req.filter (fun f => (dataGet data f).isNone)))) ∧
        (req.filter (fun f => (dataGet data f).isNone) = [] →
          validate_input_data data expected = Except.ok ()))) := by
  constructor
  · intro h
    push_neg at h
    have hreq : REQUIRED_FIELDS expected = none := by
      unfold REQUIRED_FIELDS
      rw [if_neg h.1, if_neg h.2.1, if_neg h.2.2]
    simp only [validate_input_data, hreq]
  · intro req hreq
    constructor
    · intro hne
      simp only [validate_input_data, hreq, if_pos hne]
    · intro heq
      have hcond : ¬(dataGet data ("hook_event_name") ≠ some expected) := by
        simpa using heq
      refine ⟨?_, ?_, ?_⟩
      · intro ms hms f
        by_cases hmiss : req.filter (fun f => (dataGet data f).isNone) = []
        · simp only [validate_input_data, hreq, if_neg hcond, hmiss,
            ne_eq, not_true_eq_false, if_false] at hms
          exact Except.noConfusion hms
        · simp only [validate_input_data, hreq, if_neg hcond, hmiss,
            ne_eq, not_false_iff, if_true, Except.error.injEq,
            VError.missingFields.injEq] at hms
          subst hms
          simp only [List.mem_filter, Option.isNone_iff_eq_none]
      · intro hmiss
        simp only [validate_input_data, hreq, if_neg hcond, hmiss,
          ne_eq, not_false_iff, if_true]
      · intro hmiss
        simp only [validate_input_data, hreq, if_neg hcond, hmiss,
          ne_eq, not_true_eq_false, if_false]

/-- Witness for C7: a `Stop` record missing `session_id` produces
`missingFields ["session_id"]`. -/
theorem c7_validate_cases_witness :
    validate_input_data [(("hook_event_name"), some ("Stop"))] ("Stop")
      = Except.error (VError.missingFields ["session_id"]) :=
  (((c7_validate_cases [(("hook_event_name"), some ("Stop"))] ("Stop")).2
      (["session_id", "hook_event_name"]) (by decide)).2 (by decide)).2.1 (by decide)

/-! ### C8: the focus detector fails closed -/

lemma startsWithList_nil (l : List Char) : startsWithList l [] = true := by
  cases l <;> rfl

lemma startsWithList_append_self (p x : List Char) :
    startsWithList (p ++ x) p = true := by
  induction p with
  | nil => exact startsWithList_nil _
  | cons c ps ih =>
    simp only [List.cons_append, startsWithList, beq_self_eq_true, Bool.true_and]
    exact ih

lemma strStartsWith_append_self (p x : String) :
    strStartsWith (p ++ x) p = true := by
  show startsWithList ((p ++ x).data) p.data = true
  rw [String.data_append]
  exact startsWithList_append_self p.data x.data

/-- C8: the focus detector returns `false` immediately when the
environment session identifier is absent (whatever the query behaviour);
it returns `false` on a query failure and whenever the frontmost
application is not the expected terminal program; and it returns `true`
only when the frontmost application is iTerm2 and the reported
active-session identifier equals the (nonempty) environment-provided
identifier.  Being a total `Bool`-valued function, it never raises. -/
theorem c8_focus_fail_closed (w : World) :
    (w.env = "" → is_session_focused w = false) ∧
    (w.osascript_fails = true → is_session_focused w = false) ∧
    (w.front_app ≠ "iTerm2" → is_session_focused w = false) ∧
    (is_session_focused w = true →
      w.front_app = "iTerm2" ∧
      ∃ uid, w.iterm_query = Except.ok uid ∧
        uid = (parse_iterm_session_id w.env).2 ∧
        (parse_iterm_session_id w.env).2 ≠ "") := by
  refine ⟨?_, ?_, ?_, ?_⟩
  · intro h
    simp [is_session_focused, h, parse_iterm_session_id]
  · intro h
    by_cases henv : (parse_iterm_session_id w.env).2 = "" <;>
      simp [is_session_focused, h, henv]
  · intro h
    have hout : osaOutput w = "NOTFRONT:" ++ w.front_app := by
      simp [osaOutput, h]
    have hsw := strStartsWith_append_self ("NOTFRONT:") w.front_app
    by_cases henv : (parse_iterm_session_id w.env).2 = "" <;>
      by_cases hos : w.osascript_fails <;>
        simp [is_session_focused, henv, hos, hout, hsw]
  · intro htrue
    by_cases henv : (parse_iterm_session_id w.env).2 = ""
    · exfalso
      simp [is_session_focused, henv] at htrue
    · by_cases hos : w.osascript_fails
      · exfalso
        simp [is_session_focused, henv, hos] at htrue
      · by_cases hfront : w.front_app = "iTerm2"
        · refine ⟨hfront, ?_⟩
          cases hq : w.iterm_query with
          | error msg =>
            exfalso
            have hout : osaOutput w = "ERROR:" ++ msg := by
              simp [osaOutput, hfront, hq]
            have hsw := strStartsWith_append_self ("ERROR:") msg
            simp [is_session_focused, henv, hos, hout, hsw] at htrue
          | ok uid =>
            refine ⟨uid, rfl, ?_, henv⟩
            have hout : osaOutput w = uid := by
              simp [osaOutput, hfront, hq]
            simp only [is_session_focused, hout, if_neg henv, hos,
              Bool.false_eq_true, not_false_iff, if_false] at htrue
            by_cases hb : (strStartsWith uid ("NOTFRONT:")
                || strStartsWith uid ("ERROR:")) = true
            · rw [if_pos hb] at htrue
              exact Bool.noConfusion htrue
            · rw [if_neg hb] at htrue
              exact eq_of_beq htrue
        · exfalso
          have hout : osaOutput w = "NOTFRONT:" ++ w.front_app := by
            simp [osaOutput, hfront]
          have hsw := strStartsWith_append_self ("NOTFRONT:") w.front_app
          simp [is_session_focused, henv, hos, hout, hsw] at htrue

/-- Witness for C8: with the environment identifier absent the detector
reports not-focused even though the query would have matched. -/
theorem c8_focus_fail_closed_witness : is_session_focused wEmptyEnv = false :=
  (c8_focus_fail_closed wEmptyEnv).1 rfl

/-! ### C4: the notification decision -/

/-- C4: with all mechanisms available and a session uuid present, a
focused session gets the audible cue, then a 0.7s pause, then the
background flash, with no desktop alert in the trace; an unfocused
session gets a desktop alert grouped by the session uuid and carrying
the `-execute activate-session.sh "<uuid>"` click-reactivation action,
no audible cue, and the background flash still fires. -/
theorem c4_notify_decision (w : World) (title subtitle cwd : String)
    (hfl : w.afplay_missing = false) (hnm : w.notifier_missing = false)
    (hnf : w.notifier_fails = false) (htty : w.tty_fails = false)
    (huuid : (parse_iterm_session_id w.env).2 ≠ "") :
    (is_session_focused w = true →
      send_notification w title subtitle cwd
        = Except.ok [Action.afplay glassSound, Action.sleepMs 700,
            Action.ttyWrite setFlashColor, Action.sleepMs 200, Action.ttyWrite setBgColor,
            Action.logInfo ("Notification skipped (session focused): "
              ++ title ++ " - " ++ subtitle)] ∧
      List.countP Action.isDesktopAlert
        [Action.afplay glassSound, Action.sleepMs 700,
         Action.ttyWrite setFlashColor, Action.sleepMs 200, Action.ttyWrite setBgColor,
         Action.logInfo ("Notification skipped (session focused): "
           ++ title ++ " - " ++ subtitle)] = 0) ∧
    (is_session_focused w = false →
      send_notification w title subtitle cwd
        = Except.ok [Action.runCmd
              (["terminal-notifier", "-sound", "default", "-title", title,
                "-subtitle", subtitle ++ "\n" ++ w.now_str,
                "-group", (parse_iterm_session_id w.env).2,
                "-execute", activate_script ++ " \x22"
                  ++ (parse_iterm_session_id w.env).2 ++ "\x22"]),
            Action.ttyWrite setFlashColor, Action.sleepMs 200, Action.ttyWrite setBgColor,
            Action.logInfo ("Notification sent: " ++ title ++ " - " ++ subtitle
              ++ " (session: " ++ (parse_iterm_session_id w.env).1 ++ ")")] ∧
      List.countP Action.isAudible
        [Action.runCmd
            (["terminal-notifier", "-sound", "default", "-title", title,
              "-subtitle", subtitle ++ "\n" ++ w.now_str,
              "-group", (parse_iterm_session_id w.env).2,
              "-execute", activate_script ++ " \x22"
                ++ (parse_iterm_session_id w.env).2 ++ "\x22"]),
          Action.ttyWrite setFlashColor, Action.sleepMs 200, Action.ttyWrite setBgColor,
          Action.logInfo ("Notification sent: " ++ title ++ " - " ++ subtitle
            ++ " (session: " ++ (parse_iterm_session_id w.env).1 ++ ")")] = 0) := by
  constructor
  · intro hfoc
    constructor
    · simp only [send_notification, hfoc, if_true, hfl, Bool.false_eq_true, if_false,
        flash_bg, htty]
      rfl
    · simp [List.countP_cons, Action.isDesktopAlert]
  · intro hfoc
    constructor
    · simp only [send_notification, hfoc, Bool.false_eq_true, if_false, hnm, hnf,
        flash_bg, htty, notifierCmd, huuid, if_neg]
      rfl
    · simp [List.countP_cons, Action.isAudible]

/-- Witness for C4 on the focused branch at a concrete world. -/
theorem c4_notify_decision_witness :
    send_notification wFocused ("t") ("s") ("")
      = Except.ok [Action.afplay glassSound, Action.sleepMs 700,
          Action.ttyWrite setFlashColor, Action.sleepMs 200, Action.ttyWrite setBgColor,
          Action.logInfo ("Notification skipped (session focused): "
            ++ "t" ++ " - " ++ "s")] :=
  ((c4_notify_decision wFocused ("t") ("s") ("") rfl rfl rfl rfl (by decide)).1
    (by decide)).1

/-! ### C5: notification failures are swallowed, except the uncovered
`Popen` on the focused path; the ledger update is independent of them -/

/-- C5 counterexample: with the session focused and the sound binary
absent, `send_notification` raises `FileNotFoundError` to its caller
(the `subprocess.Popen` at ccnotify.py line 265 is outside every `try`
block) instead of swallowing the failure. -/
theorem c5_popen_raises :
    is_session_focused wFocusedNoAfplay = true ∧
    send_notification wFocusedNoAfplay ("t") ("s") ("")
      = Except.error PyErr.fileNotFound := by
  exact ⟨by decide, by rfl⟩

/-- C5 (amended): a missing desktop-alert binary and any other dispatch
or terminal-write error are logged and swallowed, and the Stop handler's
ledger update is fixed before the dispatcher runs, so the closed record's
`stoped_at` is set regardless of any notification failure; but
`send_notification` does raise in exactly one situation — the focused
path with the audible-cue binary missing. -/
theorem c5_best_effort (w : World) (title subtitle cwd : String)
    (db : DB) (now : Nat) (sid : String) :
    (send_notification w title subtitle cwd = Except.error PyErr.fileNotFound ↔
      is_session_focused w = true ∧ w.afplay_missing = true) ∧
    (is_session_focused w = false → w.notifier_missing = true →
      send_notification w title subtitle cwd
        = Except.ok [Action.logWarn ("terminal-notifier not found, notification skipped")]) ∧
    (is_session_focused w = false → w.notifier_missing = false →
        w.notifier_fails = true →
      send_notification w title subtitle cwd
        = Except.ok [Action.logError ("Error sending notification")]) ∧
    ((run_stop db now sid w).1 = (handle_stop db now sid).1) ∧
    (∀ w2 : World, (run_stop db now sid w).1 = (run_stop db now sid w2).1) := by
  refine ⟨⟨?_, ?_⟩, ?_, ?_, ?_, ?_⟩
  · intro h
    by_cases hfoc : is_session_focused w = true
    · by_cases hfl : w.afplay_missing = true
      · exact ⟨hfoc, hfl⟩
      · exfalso
        rw [Bool.not_eq_true] at hfl
        simp [send_notification, hfoc, hfl] at h
    · exfalso
      rw [Bool.not_eq_true] at hfoc
      by_cases hnm : w.notifier_missing = true
      · simp [send_notification, hfoc, hnm] at h
      · rw [Bool.not_eq_true] at hnm
        by_cases hnf : w.notifier_fails = true
        · simp [send_notification, hfoc, hnm, hnf] at h
        · rw [Bool.not_eq_true] at hnf
          simp [send_notification, hfoc, hnm, hnf] at h
  · rintro ⟨hfoc, hfl⟩
    simp [send_notification, hfoc, hfl]
  · intro hfoc hnm
    simp [send_notification, hfoc, hnm]
  · intro hfoc hnm hnf
    simp [send_notification, hfoc, hnm, hnf]
  · rcases h : handle_stop db now sid with ⟨db2, call⟩
    cases call <;> simp [run_stop, h]
  · intro w2
    rcases h : handle_stop db now sid with ⟨db2, call⟩
    cases call <;> simp [run_stop, h]

/-- Witness for C5 (amended): a missing `terminal-notifier` binary on
the unfocused path is swallowed and logged as a warning. -/
theorem c5_best_effort_witness :
    send_notification wUnfocusedNoNotifier ("t") ("s") ("")
      = Except.ok [Action.logWarn ("terminal-notifier not found, notification skipped")] :=
  (c5_best_effort wUnfocusedNoNotifier ("t") ("s") ("") DB.empty 0 ("s1")).2.1
    (by decide) rfl

/-! ### Lemmas about `pickLatest` and update-by-id -/

lemma pickLatest_isSome (l : List TaskRecord) (h : l ≠ []) :
    ∃ r, pickLatest l = some r := by
  cases l with
  | nil => exact absurd rfl h
  | cons a as =>
    cases hp : pickLatest as with
    | none => exact ⟨a, by simp only [pickLatest, hp]⟩
    | some b =>
      by_cases hc : b.created_at > a.created_at
      · exact ⟨b, by simp only [pickLatest, hp]; rw [if_pos hc]⟩
      · exact ⟨a, by simp only [pickLatest, hp]; rw [if_neg hc]⟩

lemma pickLatest_eq_none {l : List TaskRecord}
    (h : pickLatest l = none) : l = [] := by
  cases l with
  | nil => rfl
  | cons a as =>
    exfalso
    obtain ⟨r, hr⟩ := pickLatest_isSome (a :: as) (List.cons_ne_nil a as)
    rw [h] at hr
    exact Option.noConfusion hr

lemma pickLatest_mem {l : List TaskRecord} {r : TaskRecord}
    (h : pickLatest l = some r) : r ∈ l := by
  induction l with
  | nil => exact Option.noConfusion h
  | cons a as ih =>
    cases hp : pickLatest as with
    | none =>
      simp only [pickLatest, hp, Option.some.injEq] at h
      rw [← h]
      exact List.mem_cons_self a as
    | some b =>
      simp only [pickLatest, hp] at h
      by_cases hc : b.created_at > a.created_at
      · rw [if_pos hc, Option.some.injEq] at h
        subst h
        exact List.mem_cons_of_mem a (ih hp)
      · rw [if_neg hc, Option.some.injEq] at h
        subst h
        exact List.mem_cons_self _ as

lemma pickLatest_max {l : List TaskRecord} :
    ∀ {r : TaskRecord}, pickLatest l = some r →
      ∀ q ∈ l, q.created_at ≤ r.created_at := by
  induction l with
  | nil => intro r h; exact Option.noConfusion h
  | cons a as ih =>
    intro r h q hq
    cases hp : pickLatest as with
    | none =>
      simp only [pickLatest, hp, Option.some.injEq] at h
      rcases List.mem_cons.mp hq with rfl | hq'
      · rw [← h]
      · rw [pickLatest_eq_none hp] at hq'
        cases hq'
    | some b =>
      simp only [pickLatest, hp] at h
      by_cases hc : b.created_at > a.created_at
      · rw [if_pos hc, Option.some.injEq] at h
        subst h
        rcases List.mem_cons.mp hq with rfl | hq'
        · exact le_of_lt hc
        · exact ih hp q hq'
      · rw [if_neg hc, Option.some.injEq] at h
        subst h
        rcases List.mem_cons.mp hq with rfl | hq'
        · exact le_refl _
        · exact le_trans (ih hp q hq') (not_lt.mp hc)

lemma map_update_by_id (rows : List TaskRecord) (f : TaskRecord → TaskRecord)
    (r : TaskRecord) (hmem : r ∈ rows)
    (hnodup : (rows.map (fun q => q.id)).Nodup) :
    ∃ i, ∃ hi : i < rows.length,
      rows.get ⟨i, hi⟩ = r ∧
      rows.map (fun q => if q.id == r.id then f q else q) = rows.set i (f r) := by
  induction rows with
  | nil => cases hmem
  | cons a as ih =>
    have hnodup' : (as.map (fun q => q.id)).Nodup := (List.nodup_cons.mp hnodup).2
    have hnotin : a.id ∉ as.map (fun q => q.id) := (List.nodup_cons.mp hnodup).1
    rcases List.mem_cons.mp hmem with rfl | hmem'
    · refine ⟨0, by simp, rfl, ?_⟩
      simp only [List.map_cons, beq_self_eq_true, if_true, List.set_cons_zero]
      congr 1
      have hcong : ∀ q ∈ as, (if q.id == r.id then f q else q) = q := by
        intro q hq
        have hne : ¬(q.id == r.id) = true := by
          simp only [beq_iff_eq]
          intro he
          exact hnotin (he ▸ List.mem_map_of_mem (fun q => q.id) hq)
        rw [if_neg hne]
      rw [List.map_congr_left hcong, List.map_id']
    · have hane : ¬(a.id == r.id) = true := by
        simp only [beq_iff_eq]
        intro he
        exact hnotin (by
          rw [he]
          exact List.mem_map_of_mem (fun q => q.id) hmem')
      obtain ⟨i, hi, hget, hmap⟩ := ih hmem' hnodup'
      refine ⟨i + 1, by simpa using Nat.succ_lt_succ hi, hget, ?_⟩
      simp only [List.map_cons, List.set_cons_succ]
      rw [if_neg hane, hmap]

/-! ### C2: closing the most recent open task -/

/-- C2: when a session has no open record, `closeMostRecentOpenTask`
returns `none` and leaves the database unchanged, and the Stop handler
requests no notification; otherwise it selects an open record of that
session with the latest `created_at`, returns it with `stoped_at` set to
now, and the new table equals the old one with exactly that row's
`stoped_at` set (every other row unchanged). -/
theorem c2_close_behavior (db : DB) (now : Nat) (sid : String)
    (hids : (db.rows.map (fun r => r.id)).Nodup) :
    (openRows db sid = [] →
      closeMostRecentOpenTask db now sid = (db, none) ∧
      handle_stop db now sid = (db, none)) ∧
    (openRows db sid ≠ [] →
      ∃ r, r ∈ db.rows ∧ r.session_id = sid ∧ r.stoped_at = none ∧
        (∀ q ∈ openRows db sid, q.created_at ≤ r.created_at) ∧
        (closeMostRecentOpenTask db now sid).2 = some { r with stoped_at := some now } ∧
        ∃ i, ∃ hi : i < db.rows.length,
          db.rows.get ⟨i, hi⟩ = r ∧
          (closeMostRecentOpenTask db now sid).1.rows
            = db.rows.set i { r with stoped_at := some now }) := by
  constructor
  · intro h
    have hp : pickLatest (openRows db sid) = none := by rw [h]; rfl
    constructor
    · simp only [closeMostRecentOpenTask, hp]
    · simp only [handle_stop, closeMostRecentOpenTask, hp]
  · intro hne
    obtain ⟨r, hp⟩ := pickLatest_isSome _ hne
    have hmemOpen : r ∈ openRows db sid := pickLatest_mem hp
    have hmem : r ∈ db.rows := (List.mem_filter.mp hmemOpen).1
    have hcond := (List.mem_filter.mp hmemOpen).2
    rw [Bool.and_eq_true] at hcond
    have hsid : r.session_id = sid := by
      have := hcond.1
      rwa [beq_iff_eq] at this
    have hopen : r.stoped_at = none := Option.isNone_iff_eq_none.mp hcond.2
    obtain ⟨i, hi, hget, hmap⟩ :=
      map_update_by_id db.rows (fun q => { q with stoped_at := some now }) r hmem hids
    refine ⟨r, hmem, hsid, hopen, pickLatest_max hp, ?_, i, hi, hget, ?_⟩
    · simp only [closeMostRecentOpenTask, hp]
    · simp only [closeMostRecentOpenTask, hp, hmap]

/-- Witness for C2 at the concrete database: the open row with the
latest creation time is closed, the other rows survive unchanged. -/
theorem c2_close_behavior_witness :
    ∃ r, r ∈ dbEx.rows ∧ r.session_id = "s1" ∧ r.stoped_at = none ∧
      (∀ q ∈ openRows dbEx ("s1"), q.created_at ≤ r.created_at) ∧
      (closeMostRecentOpenTask dbEx 9 ("s1")).2 = some { r with stoped_at := some 9 } ∧
      ∃ i, ∃ hi : i < dbEx.rows.length,
        dbEx.rows.get ⟨i, hi⟩ = r ∧
        (closeMostRecentOpenTask dbEx 9 ("s1")).1.rows
          = dbEx.rows.set i { r with stoped_at := some 9 } :=
  (c2_close_behavior dbEx 9 ("s1") (by decide)).2 (by decide)

/-! ### C6: the Notification handler -/

/-- C6: a message containing a waiting-for-input phrase only updates
`lastWaitUserAt` on the single most-recently-created record of the
session (open or closed) and requests no alert, doing nothing when the
session has no records; any other message leaves the ledger unchanged
and requests a notification whose subtitle is chosen by substring match
(`"permission"`, then `"approval"`/`"choose an option"`, else the
default) with title `basename(cwd)` or the fallback title. -/
theorem c6_notification_behavior (db : DB) (now : Nat) (sid message cwd : String)
    (hids : (db.rows.map (fun r => r.id)).Nodup) :
    (isWaitingMessage (pyLower message) = true →
      handle_notification db now sid message cwd
        = (markWaitingForUser db now sid, none) ∧
      (sessionRows db sid = [] → markWaitingForUser db now sid = db) ∧
      (sessionRows db sid ≠ [] →
        ∃ r, r ∈ sessionRows db sid ∧
          (∀ q ∈ sessionRows db sid, q.created_at ≤ r.created_at) ∧
          ∃ i, ∃ hi : i < db.rows.length,
            db.rows.get ⟨i, hi⟩ = r ∧
            (markWaitingForUser db now sid).rows
              = db.rows.set i { r with lastWaitUserAt := some now })) ∧
    (isWaitingMessage (pyLower message) = false →
      (handle_notification db now sid message cwd).1 = db ∧
      (handle_notification db now sid message cwd).2
        = some { title := if cwd ≠ "" then basename cwd else ("Claude Task"),
                 subtitle := classifySubtitle (pyLower message), cwd := cwd } ∧
      (pyIn ("permission") (pyLower message) = true →
        classifySubtitle (pyLower message) = "Permission Required") ∧
      (pyIn ("permission") (pyLower message) = false →
        (pyIn ("approval") (pyLower message)
          || pyIn ("choose an option") (pyLower message)) = true →
        classifySubtitle (pyLower message) = "Action Required") ∧
      (pyIn ("permission") (pyLower message) = false →
        (pyIn ("approval") (pyLower message)
          || pyIn ("choose an option") (pyLower message)) = false →
        classifySubtitle (pyLower message) = "Notification")) := by
  constructor
  · intro hw
    refine ⟨by simp only [handle_notification, hw, if_true], ?_, ?_⟩
    · intro h
      have hp : pickLatest (sessionRows db sid) = none := by rw [h]; rfl
      simp only [markWaitingForUser, hp]
    · intro hne
      obtain ⟨r, hp⟩ := pickLatest_isSome _ hne
      have hmemS : r ∈ sessionRows db sid := pickLatest_mem hp
      have hmem : r ∈ db.rows := (List.mem_filter.mp hmemS).1
      obtain ⟨i, hi, hget, hmap⟩ :=
        map_update_by_id db.rows (fun q => { q with lastWaitUserAt := some now })
          r hmem hids
      refine ⟨r, hmemS, pickLatest_max hp, i, hi, hget, ?_⟩
      simp only [markWaitingForUser, hp, hmap]
  · intro hw
    refine ⟨by simp only [handle_notification, hw, Bool.false_eq_true, if_false],
      by simp only [handle_notification, hw, Bool.false_eq_true, if_false], ?_, ?_, ?_⟩
    · intro hperm
      simp only [classifySubtitle, hperm, if_true]
    · intro hperm hact
      simp only [classifySubtitle, hperm, Bool.false_eq_true, if_false, hact, if_true]
    · intro hperm hact
      simp only [classifySubtitle, hperm, hact, Bool.false_eq_true, if_false]

/-- Witness for C6: a waiting message at the concrete database updates
the ledger only, raising no alert. -/
theorem c6_notification_behavior_witness :
    handle_notification dbEx 9 ("s1") ("Claude is waiting for your input") ("")
      = (markWaitingForUser dbEx 9 ("s1"), none) :=
  ((c6_notification_behavior dbEx 9 ("s1") ("Claude is waiting for your input") ("")
    (by decide)).1 (by decide)).1

/-! ### C1: the per-session `seq` invariant -/

lemma maxSeq_eq_foldl (rows : List TaskRecord) (sid : String) :
    maxSeq rows sid
      = ((rows.filter (fun r => r.session_id == sid)).map
          (fun r => r.seq.getD 0)).foldl max 0 := by
  suffices h : ∀ a : Nat,
      rows.foldl (fun m r => if r.session_id == sid then max m (r.seq.getD 0) else m) a
        = ((rows.filter (fun r => r.session_id == sid)).map
            (fun r => r.seq.getD 0)).foldl max a from h 0
  induction rows with
  | nil => intro a; rfl
  | cons r rs ih =>
    intro a
    simp only [List.foldl_cons, List.filter_cons]
    by_cases hc : (r.session_id == sid) = true
    · rw [if_pos hc, if_pos hc, List.map_cons, List.foldl_cons]
      exact ih (max a (r.seq.getD 0))
    · rw [if_neg hc, if_neg hc]
      exact ih a

lemma foldl_max_range' (n : Nat) : (List.range' 1 n).foldl max 0 = n := by
  induction n with
  | zero => rfl
  | succ k ih =>
    rw [List.range'_concat, List.foldl_append, ih, List.foldl_cons, List.foldl_nil]
    omega

lemma maxSeq_eq_countSid (db : DB) (sid : String)
    (hseq : sessionSeqs db sid = (List.range' 1 (countSid db sid)).map some) :
    maxSeq db.rows sid = countSid db sid := by
  have h1 : (db.rows.filter (fun r => r.session_id == sid)).map
      (fun r => r.seq.getD 0)
        = ((db.rows.filter (fun r => r.session_id == sid)).map
            (fun r => r.seq)).map (fun o => o.getD 0) := by
    rw [List.map_map]
    rfl
  have h2 : ((List.range' 1 (countSid db sid)).map some).map
      (fun o : Option Nat => o.getD 0) = List.range' 1 (countSid db sid) := by
    rw [List.map_map]
    have hcomp : ((fun o : Option Nat => o.getD 0) ∘ some) = fun n : Nat => n := rfl
    rw [hcomp, List.map_id']
  rw [maxSeq_eq_foldl, h1]
  have hs : (db.rows.filter (fun r => r.session_id == sid)).map (fun r => r.seq)
      = (List.range' 1 (countSid db sid)).map some := hseq
  rw [hs, h2, foldl_max_range']

lemma maxSeq_append_none (rows : List TaskRecord) (r0 : TaskRecord)
    (sid : String) (h : r0.seq = none) :
    maxSeq (rows ++ [r0]) sid = maxSeq rows sid := by
  unfold maxSeq
  rw [List.foldl_append]
  simp only [List.foldl_cons, List.foldl_nil, h, Option.getD_none, Nat.max_zero,
    ite_self]

lemma createTask_rows (db : DB) (now : Nat) (sid pr cw : String)
    (hid : ∀ r ∈ db.rows, r.id < db.nextId) :
    (createTask db now sid pr cw).rows
      = db.rows ++
        [{ id := db.nextId, session_id := sid, created_at := now, prompt := pr,
           cwd := cw, seq := some (maxSeq db.rows sid + 1), stoped_at := none,
           lastWaitUserAt := none }] := by
  simp only [createTask, List.map_append, List.map_cons, List.map_nil,
    beq_self_eq_true, if_true]
  have hcong : ∀ q ∈ db.rows,
      (if q.id == db.nextId
        then { q with seq := some (maxSeq (db.rows ++
          [{ id := db.nextId, session_id := sid, created_at := now, prompt := pr,
             cwd := cw, seq := none, stoped_at := none, lastWaitUserAt := none }]) sid + 1) }
        else q) = q := by
    intro q hq
    have hne : ¬(q.id == db.nextId) = true := by
      simp only [beq_iff_eq]
      exact Nat.ne_of_lt (hid q hq)
    rw [if_neg hne]
  rw [List.map_congr_left hcong, List.map_id']
  rw [maxSeq_append_none db.rows _ sid rfl]

lemma countSid_createTask (db : DB) (now : Nat) (sid pr cw s : String)
    (hid : ∀ r ∈ db.rows, r.id < db.nextId) :
    countSid (createTask db now sid pr cw) s
      = countSid db s + (if (sid == s) = true then 1 else 0) := by
  simp only [countSid, createTask_rows db now sid pr cw hid, List.countP_append,
    List.countP_cons, List.countP_nil, Nat.zero_add]

lemma seqInv_createTask (db : DB) (now : Nat) (sid pr cw : String)
    (h : SeqInv db) : SeqInv (createTask db now sid pr cw) := by
  obtain ⟨hid, hseq⟩ := h
  have hrows := createTask_rows db now sid pr cw hid
  have hnext : (createTask db now sid pr cw).nextId = db.nextId + 1 := rfl
  have hmax : maxSeq db.rows sid = countSid db sid :=
    maxSeq_eq_countSid db sid (hseq sid)
  constructor
  · intro r hr
    rw [hrows] at hr
    rw [hnext]
    rcases List.mem_append.mp hr with hr1 | hr2
    · exact Nat.lt_succ_of_lt (hid r hr1)
    · rcases List.mem_singleton.mp hr2 with rfl
      exact Nat.lt_succ_self _
  · intro s
    have hfilter : sessionRows (createTask db now sid pr cw) s
        = sessionRows db s ++ (if (sid == s) = true
            then [{ id := db.nextId, session_id := sid, created_at := now,
                    prompt := pr, cwd := cw,
                    seq := some (maxSeq db.rows sid + 1), stoped_at := none,
                    lastWaitUserAt := none }] else []) := by
      simp only [sessionRows, hrows, List.filter_append]
      congr 1
      simp only [List.filter_cons, List.filter_nil]
    by_cases hc : (sid == s) = true
    · have hss : sid = s := beq_iff_eq.mp hc
      subst hss
      rw [countSid_createTask db now sid pr cw sid hid, if_pos hc]
      simp only [sessionSeqs, hfilter, if_pos hc, List.map_append, List.map_cons,
        List.map_nil, hmax]
      have hold : (sessionRows db sid).map (fun r => r.seq)
          = (List.range' 1 (countSid db sid)).map some := hseq sid
      rw [hold, List.range'_concat, List.map_append]
      congr 1
      have harith : countSid db sid + 1 = 1 + 1 * countSid db sid := by omega
      rw [harith]
      rfl
    · rw [countSid_createTask db now sid pr cw s hid, if_neg hc, Nat.add_zero]
      simp only [sessionSeqs, hfilter, if_neg hc, List.append_nil]
      exact hseq s

lemma seqInv_runCreates (ops : List CreateOp) :
    ∀ db : DB, SeqInv db →
      SeqInv (runCreates db ops) ∧
      ∀ sid, countSid (runCreates db ops) sid
        = countSid db sid + ops.countP (fun op => op.session_id == sid) := by
  induction ops with
  | nil =>
    intro db h
    exact ⟨h, fun sid => by simp [runCreates, List.countP_nil]⟩
  | cons op ops ih =>
    intro db h
    have hstep : runCreates db (op :: ops)
        = runCreates (createTask db op.now op.session_id op.prompt op.cwd) ops := rfl
    have hinv1 := seqInv_createTask db op.now op.session_id op.prompt op.cwd h
    obtain ⟨hinv2, hcount2⟩ := ih _ hinv1
    refine ⟨hstep ▸ hinv2, fun sid => ?_⟩
    rw [hstep, hcount2 sid,
      countSid_createTask db op.now op.session_id op.prompt op.cwd sid h.1,
      List.countP_cons]
    omega

/-- C1: replaying any sequence of `createTask` calls from the empty
database — sessions arbitrarily interleaved — leaves every session with
`seq` column exactly `some 1, ..., some N` in creation order, where `N`
is the number of creations for that session: no duplicates, no gaps. -/
theorem c1_seq_contiguous (ops : List CreateOp) (sid : String) :
    sessionSeqs (runCreates DB.empty ops) sid
      = (List.range' 1
          (ops.countP (fun op => op.session_id == sid))).map some := by
  have hinv0 : SeqInv DB.empty := by
    constructor
    · intro r hr
      cases hr
    · intro s
      rfl
  obtain ⟨⟨_, hseq⟩, hcount⟩ := seqInv_runCreates ops DB.empty hinv0
  rw [hseq sid, hcount sid]
  have h0 : countSid DB.empty sid = 0 := rfl
  rw [h0, Nat.zero_add]

end CCNotify
